import Mathlib

/-!
# Verification of the Tag0 tagged-value system

Shallow embedding of `src/Tag0.cpp`: a tagged-value encoding for 64-bit
integers, booleans and boxed doubles, a fixed-capacity arena
(`ConstexprHeap`), and a generalized `add` with numeric promotion.

Modelling conventions:
* `int64_t` values are `ℤ` together with explicit reduction modulo `2^64`
  where the machine would overflow (`wrap64`).  All numerals below are the
  decimal forms of the relevant powers of two (`2^63 = 9223372036854775808`,
  `2^64 = 18446744073709551616`).
* `x & 0b111` on an in-range two's-complement word equals `x % 8` (Euclidean
  remainder), `x << 3` equals reduction of `8 * x`, and an arithmetic
  `x >> 3` equals floor division `Int.fdiv x 8`; the definitions use these
  arithmetic forms.
* `double` payloads are modelled as exact rationals `ℚ`; every concrete
  double appearing in the program (`20.5`, `30.5`, `-1.0`, …) is exactly
  representable in binary64, and additions of such small values are exact.
* `size_t` is `ℕ`; the conversion `size_t → int64_t` and back are `wrap64`
  and `usize64` (reduction modulo `2^64`).
* a `constexpr` member function mutating `*this` (such as
  `ConstexprHeap::allocate`) becomes a function returning the result paired
  with the updated state.
-/

namespace Tag0

/-- Reduction of an unbounded integer to the two's-complement `int64_t`
range `[-2^63, 2^63)`. -/
def wrap64 (i : ℤ) : ℤ :=
  (i + 9223372036854775808) % 18446744073709551616 - 9223372036854775808

/-- Conversion of an `int64_t` (or any integer) to `size_t`: reduction
modulo `2^64` into `ℕ`. -/
def usize64 (i : ℤ) : ℕ :=
  (i % 18446744073709551616).toNat

/-- The `int64_t` range, as a predicate. -/
def Int64Range (i : ℤ) : Prop :=
  -9223372036854775808 ≤ i ∧ i < 9223372036854775808

instance (i : ℤ) : Decidable (Int64Range i) := by
  unfold Int64Range; infer_instance

/-! ## Tag policies (`IntPolicy`, `DoublePolicy`, `BoolPolicy`) -/

namespace IntPolicy

/-- `IntPolicy::tag = 0b000`. -/
def tag : ℤ := 0

/-- `IntPolicy::tag_value`: `(value << 3) | tag`.  The left shift is the
`int64_t` product by `8` (reduced modulo `2^64`); OR-ing with the all-zero
tag `0b000` is the identity. -/
def tag_value (value : ℤ) : ℤ := wrap64 (value * 8)

/-- `IntPolicy::untag_value`: arithmetic right shift `value >> 3`,
i.e. floor division by `8`. -/
def untag_value (value : ℤ) : ℤ := Int.fdiv value 8

end IntPolicy

namespace DoublePolicy

/-- `DoublePolicy::tag = 0b001`. -/
def tag : ℤ := 1

end DoublePolicy

namespace BoolPolicy

/-- `BoolPolicy::tag = 0b011`. -/
def tag : ℤ := 3

/-- `BoolPolicy::tag_value`: `(value ? 1 : 0) | tag`.  Both operands are
small non-negative words, so the `int64_t` OR is the OR on `ℕ`.  Note the
boolean bit is OR-ed directly into the tag bits, not shifted above them. -/
def tag_value (value : Bool) : ℤ :=
  ((((if value then 1 else 0) : ℕ) ||| 3 : ℕ) : ℤ)

/-- `BoolPolicy::untag_value`: `(value & ~0b111) != 0`.  Masking with
`~0b111` clears the low three bits of the two's-complement word, which is
the subtraction of `value % 8`. -/
def untag_value (value : ℤ) : Bool :=
  decide (value - value % 8 ≠ 0)

end BoolPolicy

/-! ## The arena (`ConstexprHeap<T, N>`) -/

/-- `ConstexprHeap<T, N>`: a zero-initialised `std::array<T, N>` plus the
next-free-slot cursor.  The storage is modelled as a total function on ℕ;
only indices `< N` are ever read by `dereference`. -/
structure ConstexprHeap (T : Type) (N : ℕ) where
  storage : ℕ → T
  next_index : ℕ

namespace ConstexprHeap

/-- `ConstexprHeap::allocate`.  In the C++ the tag comes from
`TagTraits<T>::tag`; here it is passed explicitly.  On overflow the
sentinel `-1` is returned and the state is untouched; otherwise the value
is stored at the cursor, the cursor advances by one, and the encoded
pointer `(int64_t(old_cursor) << 3) | tag` is returned (the shifted index
has zero low bits and `0 ≤ tag < 8`, so the OR is an addition). -/
def allocate {T : Type} {N : ℕ} (tag : ℤ) (h : ConstexprHeap T N) (value : T) :
    ℤ × ConstexprHeap T N :=
  if N ≤ h.next_index then
    (-1, h)
  else
    (wrap64 ((h.next_index : ℤ) * 8) + tag,
     ⟨fun i => if i = h.next_index then value else h.storage i,
      h.next_index + 1⟩)

/-- `ConstexprHeap::dereference`: `size_t index = (ptr >> 3)` (arithmetic
shift, then conversion to `size_t`), bounds check against the capacity `N`
only, sentinel `-1` when out of range. -/
def dereference {T : Type} {N : ℕ} [Neg T] [One T]
    (h : ConstexprHeap T N) (ptr : ℤ) : T :=
  if N ≤ usize64 (Int.fdiv ptr 8) then
    -1
  else
    h.storage (usize64 (Int.fdiv ptr 8))

end ConstexprHeap

/-! ## Tagged values -/

/-- `TaggedValue`: a single `int64_t` word. -/
structure TaggedValue where
  raw : ℤ

namespace TaggedValue

/-- `is_type<int64_t>()`: `(raw & 0b111) == TagTraits<int64_t>::tag`. -/
def is_int (tv : TaggedValue) : Bool := tv.raw % 8 == IntPolicy.tag

/-- `is_type<double>()`: `(raw & 0b111) == TagTraits<double>::tag`. -/
def is_double (tv : TaggedValue) : Bool := tv.raw % 8 == DoublePolicy.tag

/-- `is_type<bool>()`: `(raw & 0b111) == TagTraits<bool>::tag`. -/
def is_bool (tv : TaggedValue) : Bool := tv.raw % 8 == BoolPolicy.tag

/-- `as<int64_t>(heap)` (the heap reference is unused by this branch of the
C++ template): decode on tag match, fixed default `-1` otherwise. -/
def as_int (tv : TaggedValue) : ℤ :=
  if tv.is_int then IntPolicy.untag_value tv.raw else -1

/-- `as<double>(heap)`: dereference through the arena on tag match, fixed
default `-1.0` otherwise. -/
def as_double {N : ℕ} (tv : TaggedValue) (heap : ConstexprHeap ℚ N) : ℚ :=
  if tv.is_double then heap.dereference tv.raw else -1

/-- `as<bool>(heap)` (heap unused by this branch): decode on tag match,
fixed default `false` otherwise. -/
def as_bool (tv : TaggedValue) : Bool :=
  if tv.is_bool then BoolPolicy.untag_value tv.raw else false

/-- `from<int64_t>(value, heap)` (heap unused): pure bit packing. -/
def from_int (value : ℤ) : TaggedValue :=
  ⟨IntPolicy.tag_value value⟩

/-- `from<double>(value, heap)`: allocate in the arena; on the sentinel the
C++ asserts (fatal in a constant-expression context) and would return
`{-1}`. -/
def from_double {N : ℕ} (value : ℚ) (heap : ConstexprHeap ℚ N) :
    TaggedValue × ConstexprHeap ℚ N :=
  let p := heap.allocate DoublePolicy.tag value
  if p.1 = -1 then (⟨-1⟩, p.2) else (⟨p.1⟩, p.2)

/-- `from<bool>(value, heap)` (heap unused): pure bit packing. -/
def from_bool (value : Bool) : TaggedValue :=
  ⟨BoolPolicy.tag_value value⟩

end TaggedValue

/-! ## Generalized addition -/

/-- The conversion `add` applies to each operand on its promotion path:
`o.is_type<int64_t>() ? static_cast<double>(o.as<int64_t>(int_heap)) :
o.as<double>(double_heap)`.  The `static_cast` widening is exact in this
rational model. -/
def promoteOperand {Nd : ℕ} (tv : TaggedValue)
    (double_heap : ConstexprHeap ℚ Nd) : ℚ :=
  if tv.is_int then (tv.as_int : ℚ) else tv.as_double double_heap

/-- `add(a, b, int_heap, double_heap)`.  Both heaps are passed by reference
in the C++; the model returns them (possibly updated) alongside the result.
The integer path adds the two decoded `int64_t` values (with `int64_t`
wraparound) and re-encodes; the promotion path converts each operand to a
floating-point value via `promoteOperand` and boxes the sum in the double
arena. -/
def add {Ti : Type} {Ni Nd : ℕ} (a b : TaggedValue)
    (int_heap : ConstexprHeap Ti Ni) (double_heap : ConstexprHeap ℚ Nd) :
    TaggedValue × ConstexprHeap Ti Ni × ConstexprHeap ℚ Nd :=
  if a.is_int && b.is_int then
    (TaggedValue.from_int (wrap64 (a.as_int + b.as_int)), int_heap, double_heap)
  else
    let p := TaggedValue.from_double
      (promoteOperand a double_heap + promoteOperand b double_heap) double_heap
    (p.1, int_heap, p.2)

/-! ## Concrete heaps used by the test scenarios -/

/-- A fresh `ConstexprHeap<int64_t, 8>` (zero-initialised storage). -/
def intHeap8 : ConstexprHeap ℤ 8 := ⟨fun _ => 0, 0⟩

/-- A fresh `ConstexprHeap<double, 8>` (zero-initialised storage). -/
def doubleHeap8 : ConstexprHeap ℚ 8 := ⟨fun _ => 0, 0⟩

end Tag0

namespace Tag0

/-! ## Helper lemmas about the arithmetisation -/

/-- `wrap64` is the identity on the `int64_t` range. -/
theorem wrap64_eq_self {x : ℤ} (h1 : -9223372036854775808 ≤ x)
    (h2 : x < 9223372036854775808) : wrap64 x = x := by
  unfold wrap64; omega

/-- `wrap64` lands in the `int64_t` range. -/
theorem wrap64_mem_range (x : ℤ) : Int64Range (wrap64 x) := by
  unfold Int64Range wrap64; omega

/-- `wrap64` preserves residues modulo `8` (since `8 ∣ 2^64`). -/
theorem wrap64_emod_eight (x : ℤ) : wrap64 x % 8 = x % 8 := by
  unfold wrap64; omega

/-- Floor division by `8` agrees with Euclidean division by `8`. -/
theorem fdiv_eight_eq_ediv (x : ℤ) : Int.fdiv x 8 = x / 8 :=
  Int.fdiv_eq_ediv x (by norm_num)

/-! ## Structural lemmas about the embedded operations -/

/-- An integer-encoded word always carries the Integer tag. -/
theorem from_int_is_int (i : ℤ) : (TaggedValue.from_int i).is_int = true := by
  simp only [TaggedValue.from_int, TaggedValue.is_int, IntPolicy.tag_value,
    IntPolicy.tag, beq_iff_eq, wrap64_emod_eight]
  omega

/-- Integer round-trip on the payload range `[-2^60, 2^60)`. -/
theorem from_int_as_int (i : ℤ) (h1 : -1152921504606846976 ≤ i)
    (h2 : i < 1152921504606846976) :
    (TaggedValue.from_int i).as_int = i := by
  have hw : wrap64 (i * 8) = i * 8 := wrap64_eq_self (by omega) (by omega)
  simp only [TaggedValue.as_int, TaggedValue.from_int, TaggedValue.is_int,
    IntPolicy.tag_value, IntPolicy.untag_value, IntPolicy.tag, hw,
    fdiv_eight_eq_ediv, beq_iff_eq]
  rw [if_pos (by omega)]
  omega

/-- `allocate` below capacity: explicit result and successor state. -/
theorem allocate_success {T : Type} {N : ℕ} (tag : ℤ) (h : ConstexprHeap T N)
    (v : T) (hs : h.next_index < N) :
    h.allocate tag v =
      (wrap64 ((h.next_index : ℤ) * 8) + tag,
       ⟨fun i => if i = h.next_index then v else h.storage i,
        h.next_index + 1⟩) := by
  rw [ConstexprHeap.allocate, if_neg (by omega)]

/-- `from<double>` below capacity: the allocation succeeds (the encoded
pointer has residue `1` modulo `8`, hence is not the sentinel `-1`) and the
resulting word is exactly the encoded pointer. -/
theorem from_double_success {N : ℕ} (v : ℚ) (h : ConstexprHeap ℚ N)
    (hs : h.next_index < N) :
    TaggedValue.from_double v h =
      (⟨wrap64 ((h.next_index : ℤ) * 8) + 1⟩,
       ⟨fun i => if i = h.next_index then v else h.storage i,
        h.next_index + 1⟩) := by
  have hm := wrap64_emod_eight ((h.next_index : ℤ) * 8)
  have hptr : wrap64 ((h.next_index : ℤ) * 8) + 1 ≠ -1 := by omega
  rw [TaggedValue.from_double, allocate_success DoublePolicy.tag h v hs]
  simp [DoublePolicy.tag, hptr]

/-- The heap returned by `from<double>` is the heap returned by `allocate`,
on the success and on the failure path alike. -/
theorem from_double_snd {N : ℕ} (v : ℚ) (h : ConstexprHeap ℚ N) :
    (TaggedValue.from_double v h).2 = (h.allocate DoublePolicy.tag v).2 := by
  rw [TaggedValue.from_double]
  by_cases hp : (h.allocate DoublePolicy.tag v).1 = -1 <;> simp [hp]

/-- The promotion conversion on an Integer-kind operand: decode, widen. -/
theorem promoteOperand_of_int {Nd : ℕ} (tv : TaggedValue)
    (dheap : ConstexprHeap ℚ Nd) (h : tv.is_int = true) :
    promoteOperand tv dheap = (tv.as_int : ℚ) := by
  simp [promoteOperand, h]

/-- The promotion conversion on a non-Integer operand: the Real decode
path. -/
theorem promoteOperand_of_not_int {Nd : ℕ} (tv : TaggedValue)
    (dheap : ConstexprHeap ℚ Nd) (h : tv.is_int = false) :
    promoteOperand tv dheap = tv.as_double dheap := by
  simp [promoteOperand, h]

/-- Unfolding of `add` on the promotion path. -/
theorem add_promotion_eq {Ti : Type} {Ni Nd : ℕ} (a b : TaggedValue)
    (iheap : ConstexprHeap Ti Ni) (dheap : ConstexprHeap ℚ Nd)
    (h : ¬(a.is_int = true ∧ b.is_int = true)) :
    add a b iheap dheap =
      ((TaggedValue.from_double
          (promoteOperand a dheap + promoteOperand b dheap) dheap).1, iheap,
       (TaggedValue.from_double
          (promoteOperand a dheap + promoteOperand b dheap) dheap).2) := by
  have hcond : ¬((a.is_int && b.is_int) = true) := by
    simpa [Bool.and_eq_true] using h
  rw [add, if_neg hcond]

end Tag0

namespace Tag0

/-! ## The claims -/

/-- C1: the claimed boolean round-trip `as(Boolean, from(Boolean, b)) == b`
fails in the code.  `BoolPolicy::tag_value` ORs the boolean bit directly
into the tag `0b011` (whose bit 0 is already set), so both booleans encode
to the raw word `3`; `BoolPolicy::untag_value` then finds no bit above the
tag width and decodes `false`.  Hence the round trip returns `false` for
every boolean, contradicting the claim at `b = true`. -/
theorem c1_bool_roundtrip_collapses (b : Bool) :
    (TaggedValue.from_bool b).as_bool = false := by
  cases b <;> decide

/-- C2: integer round-trip.  For every integer representable in the 61-bit
payload (`-2^60 ≤ i < 2^60`), encoding (arithmetic left shift by 3, OR with
tag `0b000`) followed by decoding (arithmetic right shift by 3) returns
`i`. -/
theorem c2_int_roundtrip (i : ℤ) (h1 : -1152921504606846976 ≤ i)
    (h2 : i < 1152921504606846976) :
    (TaggedValue.from_int i).as_int = i :=
  from_int_as_int i h1 h2

/-- C2 witness: the round trip at the concrete value `5`. -/
theorem c2_int_roundtrip_witness : (TaggedValue.from_int 5).as_int = 5 :=
  c2_int_roundtrip 5 (by decide) (by decide)

/-- C3 counterexample: with both operands `from(Integer, 2^60 - 1)`, the
two's-complement (`int64_t`) wraparound sum of the decoded operands is
`2^61 - 2`, but re-encoding shifts it into the 61-bit payload, where it
wraps, and the result extracts as `-2`.  The claim's equality fails. -/
theorem c3_counterexample :
    (add (TaggedValue.from_int 1152921504606846975)
        (TaggedValue.from_int 1152921504606846975)
        intHeap8 doubleHeap8).1.as_int = -2 ∧
    wrap64 ((TaggedValue.from_int 1152921504606846975).as_int +
        (TaggedValue.from_int 1152921504606846975).as_int)
      = 2305843009213693950 ∧
    (-2 : ℤ) ≠ 2305843009213693950 := by
  refine ⟨by decide, by decide, by decide⟩

/-- C3 (amended): when both operands test as Integer kind and the sum of
the decoded operands fits the 61-bit payload range `[-2^60, 2^60)`, `add`
returns an Integer-kind Tagged Value whose Integer extraction equals that
sum (which is then also the `int64_t` wraparound sum), using no arena
slot in either heap. -/
theorem c3_int_add_exact {Ti : Type} {Ni Nd : ℕ} (a b : TaggedValue)
    (iheap : ConstexprHeap Ti Ni) (dheap : ConstexprHeap ℚ Nd)
    (ha : a.is_int = true) (hb : b.is_int = true)
    (hlo : -1152921504606846976 ≤ a.as_int + b.as_int)
    (hhi : a.as_int + b.as_int < 1152921504606846976) :
    (add a b iheap dheap).1.is_int = true ∧
    (add a b iheap dheap).1.as_int = a.as_int + b.as_int ∧
    (add a b iheap dheap).2.1 = iheap ∧
    (add a b iheap dheap).2.2 = dheap := by
  have hcond : (a.is_int && b.is_int) = true := by rw [ha, hb]; rfl
  have hwrap : wrap64 (a.as_int + b.as_int) = a.as_int + b.as_int :=
    wrap64_eq_self (by omega) (by omega)
  rw [add, if_pos hcond]
  exact ⟨from_int_is_int _, by rw [hwrap]; exact from_int_as_int _ hlo hhi,
    rfl, rfl⟩

/-- C3 witness: `add(from(Integer,10), from(Integer,5))` extracts to `15`
and leaves both arenas untouched. -/
theorem c3_int_add_exact_witness :
    (add (TaggedValue.from_int 10) (TaggedValue.from_int 5)
        intHeap8 doubleHeap8).1.as_int = 15 ∧
    (add (TaggedValue.from_int 10) (TaggedValue.from_int 5)
        intHeap8 doubleHeap8).2.2 = doubleHeap8 := by
  have h := c3_int_add_exact (TaggedValue.from_int 10) (TaggedValue.from_int 5)
    intHeap8 doubleHeap8 (by decide) (by decide) (by decide) (by decide)
  exact ⟨by rw [h.2.1]; decide, h.2.2.2⟩

/-- C4: promotion addition.  When at least one operand is not Integer kind
and the double arena has a free slot (and its capacity fits the encodable
index range), `add` converts each operand to a floating-point value
(`promoteOperand`: decode-and-widen for Integer kind, the Real decode path
otherwise), stores their sum in the double arena at the old cursor, and
returns a Real-kind Tagged Value that extracts (as Real, through the
updated arena) to that sum. -/
theorem c4_promotion_add {Ti : Type} {Ni Nd : ℕ} (a b : TaggedValue)
    (iheap : ConstexprHeap Ti Ni) (dheap : ConstexprHeap ℚ Nd)
    (hnot : ¬(a.is_int = true ∧ b.is_int = true))
    (hspace : dheap.next_index < Nd) (hcap : Nd ≤ 1152921504606846976) :
    (add a b iheap dheap).1.is_double = true ∧
    (add a b iheap dheap).2.1 = iheap ∧
    (add a b iheap dheap).2.2.next_index = dheap.next_index + 1 ∧
    (add a b iheap dheap).2.2.storage dheap.next_index
      = promoteOperand a dheap + promoteOperand b dheap ∧
    (add a b iheap dheap).1.as_double (add a b iheap dheap).2.2
      = promoteOperand a dheap + promoteOperand b dheap := by
  rw [add_promotion_eq a b iheap dheap hnot, from_double_success _ dheap hspace]
  have hcN : dheap.next_index < 1152921504606846976 :=
    Nat.lt_of_lt_of_le hspace hcap
  have hw : wrap64 ((dheap.next_index : ℤ) * 8) = (dheap.next_index : ℤ) * 8 :=
    wrap64_eq_self (by omega) (by omega)
  refine ⟨?_, rfl, rfl, by simp, ?_⟩
  · simp only [TaggedValue.is_double, DoublePolicy.tag, beq_iff_eq, hw]
    omega
  · simp only [TaggedValue.as_double, TaggedValue.is_double, DoublePolicy.tag,
      beq_iff_eq, hw]
    rw [if_pos (by omega)]
    simp only [ConstexprHeap.dereference, usize64, fdiv_eight_eq_ediv]
    have hidx : ((((dheap.next_index : ℤ) * 8 + 1) / 8)
        % 18446744073709551616).toNat = dheap.next_index := by omega
    rw [hidx, if_neg (by omega)]
    simp

/-- C4 witness: the program's own scenario — `from(Integer, 10)` plus
`from(Real, 20.5)` in fresh capacity-8 arenas extracts (as Real) to
`30.5`. -/
theorem c4_promotion_add_witness :
    (add (TaggedValue.from_int 10)
        (TaggedValue.from_double 20.5 doubleHeap8).1 intHeap8
        (TaggedValue.from_double 20.5 doubleHeap8).2).1.as_double
      (add (TaggedValue.from_int 10)
        (TaggedValue.from_double 20.5 doubleHeap8).1 intHeap8
        (TaggedValue.from_double 20.5 doubleHeap8).2).2.2 = 30.5 := by
  have h := c4_promotion_add (TaggedValue.from_int 10)
    (TaggedValue.from_double 20.5 doubleHeap8).1 intHeap8
    (TaggedValue.from_double 20.5 doubleHeap8).2
    (by decide) (by decide) (by decide)
  have hfd : TaggedValue.from_double (20.5 : ℚ) doubleHeap8 =
      (⟨1⟩, ⟨fun i => if i = 0 then (20.5 : ℚ) else 0, 1⟩) := by
    rw [TaggedValue.from_double, allocate_success DoublePolicy.tag doubleHeap8
      (20.5 : ℚ) (by norm_num [doubleHeap8])]
    norm_num [doubleHeap8, DoublePolicy.tag, wrap64]
  rw [h.2.2.2.2, hfd]
  dsimp only
  rw [promoteOperand_of_int _ _ (by decide),
    promoteOperand_of_not_int _ _ (by decide),
    show (TaggedValue.from_int 10).as_int = (10 : ℤ) from rfl,
    show (TaggedValue.mk 1).as_double
        (⟨fun i => if i = 0 then (20.5 : ℚ) else 0, 1⟩ : ConstexprHeap ℚ 8)
      = 20.5 from rfl]
  norm_num

/-- C5: type-mismatch default.  Whenever the tag of a Tagged Value differs
from the requested kind's tag (`is_type` is false), `as` returns the fixed
default of that kind: `-1` for Integer, `-1.0` for Real, `false` for
Boolean. -/
theorem c5_type_mismatch_defaults {Nd : ℕ} (tv : TaggedValue)
    (dheap : ConstexprHeap ℚ Nd) :
    (tv.is_int = false → tv.as_int = -1) ∧
    (tv.is_double = false → tv.as_double dheap = -1) ∧
    (tv.is_bool = false → tv.as_bool = false) := by
  refine ⟨fun h => ?_, fun h => ?_, fun h => ?_⟩ <;>
    simp [TaggedValue.as_int, TaggedValue.as_double, TaggedValue.as_bool, h]

/-- C5 witness: `as(Integer, from(Boolean, true))` is `-1`,
`as(Boolean, from(Integer, 5))` is `false`, and
`as(Real, from(Integer, 5))` is `-1.0`. -/
theorem c5_type_mismatch_defaults_witness :
    (TaggedValue.from_bool true).as_int = -1 ∧
    (TaggedValue.from_int 5).as_bool = false ∧
    (TaggedValue.from_int 5).as_double doubleHeap8 = -1 :=
  ⟨(c5_type_mismatch_defaults (TaggedValue.from_bool true) doubleHeap8).1
      (by decide),
   (c5_type_mismatch_defaults (TaggedValue.from_int 5) doubleHeap8).2.2
      (by decide),
   (c5_type_mismatch_defaults (TaggedValue.from_int 5) doubleHeap8).2.1
      (by decide)⟩

/-- C6: arena exhaustion with atomicity.  On a capacity-1 arena (any
initial storage), the first `allocate` succeeds (its result is not the
sentinel `-1`), the second returns the sentinel `-1` and leaves the arena
exactly as it was, and the first stored value is still dereferenceable
through the first call's encoded pointer. -/
theorem c6_capacity_one_exhaustion (f : ℕ → ℚ) (v1 v2 : ℚ) :
    ((⟨f, 0⟩ : ConstexprHeap ℚ 1).allocate DoublePolicy.tag v1).1 ≠ -1 ∧
    (((⟨f, 0⟩ : ConstexprHeap ℚ 1).allocate DoublePolicy.tag v1).2.allocate
        DoublePolicy.tag v2).1 = -1 ∧
    (((⟨f, 0⟩ : ConstexprHeap ℚ 1).allocate DoublePolicy.tag v1).2.allocate
        DoublePolicy.tag v2).2
      = ((⟨f, 0⟩ : ConstexprHeap ℚ 1).allocate DoublePolicy.tag v1).2 ∧
    ((((⟨f, 0⟩ : ConstexprHeap ℚ 1).allocate DoublePolicy.tag v1).2.allocate
        DoublePolicy.tag v2).2).dereference
      (((⟨f, 0⟩ : ConstexprHeap ℚ 1).allocate DoublePolicy.tag v1).1) = v1 := by
  have e1 : (⟨f, 0⟩ : ConstexprHeap ℚ 1).allocate DoublePolicy.tag v1 =
      (1, ⟨fun i => if i = 0 then v1 else f i, 1⟩) := by
    rw [allocate_success DoublePolicy.tag _ v1 (by norm_num)]
    norm_num [DoublePolicy.tag, wrap64]
  have e2 : (⟨fun i => if i = 0 then v1 else f i, 1⟩ :
      ConstexprHeap ℚ 1).allocate DoublePolicy.tag v2 =
      (-1, ⟨fun i => if i = 0 then v1 else f i, 1⟩) := by
    rw [ConstexprHeap.allocate]
    norm_num
  rw [e1]
  dsimp only
  rw [e2]
  dsimp only
  refine ⟨by norm_num, rfl, rfl, ?_⟩
  rw [ConstexprHeap.dereference,
    show usize64 (Int.fdiv 1 8) = 0 by decide,
    if_neg (by norm_num)]
  simp

/-- C7: allocate postcondition.  With the cursor strictly below capacity,
`allocate(v)` stores `v` at the cursor, advances the cursor by exactly one
(in particular it never decreases), returns the encoded pointer combining
the old cursor (shifted left by the tag width) with the tag bits, and
leaves every other slot unchanged. -/
theorem c7_allocate_postcondition {T : Type} {N : ℕ} (tag : ℤ)
    (h : ConstexprHeap T N) (v : T) (hs : h.next_index < N) :
    (h.allocate tag v).2.storage h.next_index = v ∧
    (h.allocate tag v).2.next_index = h.next_index + 1 ∧
    (h.allocate tag v).1 = wrap64 ((h.next_index : ℤ) * 8) + tag ∧
    h.next_index ≤ (h.allocate tag v).2.next_index ∧
    (∀ i : ℕ, i ≠ h.next_index → (h.allocate tag v).2.storage i = h.storage i) := by
  rw [allocate_success tag h v hs]
  exact ⟨by simp, rfl, rfl, by dsimp only; omega, fun i hi => by simp [hi]⟩

/-- C7 witness: allocating `42` into a fresh capacity-8 integer arena
stores it at slot `0` and moves the cursor to `1`. -/
theorem c7_allocate_postcondition_witness :
    (intHeap8.allocate 0 (42 : ℤ)).2.storage 0 = 42 ∧
    (intHeap8.allocate 0 (42 : ℤ)).2.next_index = 1 := by
  have h := c7_allocate_postcondition 0 intHeap8 (42 : ℤ)
    (by norm_num [intHeap8])
  exact ⟨h.1, h.2.1⟩

/-- C8: dereference bounds check.  For every encoded pointer, the index is
the pointer arithmetically shifted right by the tag width; when it is below
the capacity the stored slot is returned, otherwise the sentinel `-1`; the
result never depends on the cursor; and a Real-kind Tagged Value holding an
out-of-range index extracts (as Real) to the sentinel. -/
theorem c8_dereference_bounds {N : ℕ} (h : ConstexprHeap ℚ N) (p : ℤ) :
    (usize64 (Int.fdiv p 8) < N →
      h.dereference p = h.storage (usize64 (Int.fdiv p 8))) ∧
    (N ≤ usize64 (Int.fdiv p 8) → h.dereference p = -1) ∧
    (∀ c : ℕ, (⟨h.storage, c⟩ : ConstexprHeap ℚ N).dereference p
      = h.dereference p) ∧
    (∀ tv : TaggedValue, tv.is_double = true →
      N ≤ usize64 (Int.fdiv tv.raw 8) → tv.as_double h = -1) := by
  refine ⟨fun hlt => ?_, fun hge => ?_, fun c => rfl, fun tv htv hge => ?_⟩
  · rw [ConstexprHeap.dereference, if_neg (by omega)]
  · rw [ConstexprHeap.dereference, if_pos hge]
  · rw [TaggedValue.as_double, if_pos htv, ConstexprHeap.dereference,
      if_pos hge]

/-- C8 witness: the hand-constructed Real-kind word `801` (index `100`,
tag `0b001`) extracts from a capacity-8 arena to the sentinel `-1.0`. -/
theorem c8_dereference_bounds_witness :
    (TaggedValue.mk 801).as_double doubleHeap8 = -1 :=
  (c8_dereference_bounds doubleHeap8 801).2.2.2 ⟨801⟩ (by decide) (by decide)

/-- C9 counterexample: a Boolean operand of `add` is NOT read through the
arena.  With slot `0` of the double arena holding `20.5`, dereferencing the
boolean word `3` as a Real pointer would yield the in-range slot value
`20.5` — not the invalid-pointer sentinel — yet `add` contributes `-1.0`
(the wrong-type default of `as<double>`), so the result of
`add(from(Boolean, true), from(Integer, 0))` decodes to `-1`, not to a
dereferenced value. -/
theorem c9_counterexample :
    (add (TaggedValue.from_bool true) (TaggedValue.from_int 0) intHeap8
        (⟨fun i => if i = 0 then (20.5 : ℚ) else 0, 1⟩ :
          ConstexprHeap ℚ 8)).1.as_double
      (add (TaggedValue.from_bool true) (TaggedValue.from_int 0) intHeap8
        (⟨fun i => if i = 0 then (20.5 : ℚ) else 0, 1⟩ :
          ConstexprHeap ℚ 8)).2.2 = -1 ∧
    (⟨fun i => if i = 0 then (20.5 : ℚ) else 0, 1⟩ :
        ConstexprHeap ℚ 8).dereference (TaggedValue.from_bool true).raw
      = 20.5 ∧
    ((-1 : ℚ) ≠ 20.5) := by
  have hva : promoteOperand (TaggedValue.from_bool true)
      (⟨fun i => if i = 0 then (20.5 : ℚ) else 0, 1⟩ : ConstexprHeap ℚ 8)
      = -1 := by
    rw [promoteOperand_of_not_int _ _ (by decide), TaggedValue.as_double,
      if_neg (by decide)]
  have hvb : promoteOperand (TaggedValue.from_int 0)
      (⟨fun i => if i = 0 then (20.5 : ℚ) else 0, 1⟩ : ConstexprHeap ℚ 8)
      = 0 := by
    rw [promoteOperand_of_int _ _ (by decide),
      show (TaggedValue.from_int 0).as_int = 0 from by decide]
    norm_num
  have hadd := add_promotion_eq (TaggedValue.from_bool true)
    (TaggedValue.from_int 0) intHeap8
    (⟨fun i => if i = 0 then (20.5 : ℚ) else 0, 1⟩ : ConstexprHeap ℚ 8)
    (by decide)
  refine ⟨?_, ?_, by norm_num⟩
  · rw [hadd]
    dsimp only
    rw [hva, hvb, show ((-1 : ℚ) + 0) = -1 from by norm_num,
      from_double_success (-1 : ℚ) _ (by norm_num)]
    norm_num [TaggedValue.as_double, TaggedValue.is_double, DoublePolicy.tag,
      ConstexprHeap.dereference, usize64, fdiv_eight_eq_ediv, wrap64]
  · rw [ConstexprHeap.dereference,
      show usize64 (Int.fdiv (TaggedValue.from_bool true).raw 8) = 0
        from by decide,
      if_neg (by norm_num)]
    norm_num

/-- C9 (amended): a Boolean-kind operand of `add` takes the non-Integer
path, where `as<double>` fails its Real type test and returns the
wrong-type default `-1.0`; the arena is never consulted for it, and the
boolean's truth value is lost — `add` behaves as if the operand were the
Real value `-1.0`. -/
theorem c9_bool_operand_defaults {Ti : Type} {Ni Nd : ℕ} (a b : TaggedValue)
    (iheap : ConstexprHeap Ti Ni) (dheap : ConstexprHeap ℚ Nd)
    (hb : a.is_bool = true) :
    a.is_int = false ∧ a.is_double = false ∧
    promoteOperand a dheap = -1 ∧
    add a b iheap dheap =
      ((TaggedValue.from_double ((-1) + promoteOperand b dheap) dheap).1, iheap,
       (TaggedValue.from_double ((-1) + promoteOperand b dheap) dheap).2) := by
  have hraw : a.raw % 8 = 3 := by
    simpa [TaggedValue.is_bool, BoolPolicy.tag, beq_iff_eq] using hb
  have hint : a.is_int = false := by
    simp [TaggedValue.is_int, IntPolicy.tag, hraw]
  have hdouble : a.is_double = false := by
    simp [TaggedValue.is_double, DoublePolicy.tag, hraw]
  have hprom : promoteOperand a dheap = -1 := by
    rw [promoteOperand_of_not_int _ _ hint, TaggedValue.as_double,
      if_neg (by simp [hdouble])]
  refine ⟨hint, hdouble, hprom, ?_⟩
  rw [add_promotion_eq a b iheap dheap (by simp [hint]), hprom]

/-- C9 witness: the Boolean operand `from(Boolean, true)` contributes the
wrong-type default `-1.0` on the promotion path. -/
theorem c9_bool_operand_defaults_witness :
    promoteOperand (TaggedValue.from_bool true) doubleHeap8 = -1 :=
  (c9_bool_operand_defaults (TaggedValue.from_bool true)
    (TaggedValue.from_int 0) intHeap8 doubleHeap8 (by decide)).2.2.1

/-- C10: frame property of `add`.  The integer arena is returned unchanged
on every path; the double arena is unchanged on the integer-integer path
and is exactly the result of the single `allocate` of the promoted sum on
the promotion path. -/
theorem c10_add_frame {Ti : Type} {Ni Nd : ℕ} (a b : TaggedValue)
    (iheap : ConstexprHeap Ti Ni) (dheap : ConstexprHeap ℚ Nd) :
    (add a b iheap dheap).2.1 = iheap ∧
    (a.is_int = true → b.is_int = true → (add a b iheap dheap).2.2 = dheap) ∧
    (¬(a.is_int = true ∧ b.is_int = true) →
      (add a b iheap dheap).2.2 =
        (dheap.allocate DoublePolicy.tag
          (promoteOperand a dheap + promoteOperand b dheap)).2) := by
  by_cases hc : (a.is_int && b.is_int) = true
  · rw [add, if_pos hc]
    exact ⟨rfl, fun _ _ => rfl,
      fun hn => absurd (Bool.and_eq_true _ _ ▸ hc) hn⟩
  · rw [add, if_neg hc]
    have hn : ¬(a.is_int = true ∧ b.is_int = true) := by
      intro hcon
      exact hc (by rw [hcon.1, hcon.2]; rfl)
    refine ⟨rfl, fun h1 h2 => absurd ⟨h1, h2⟩ hn, fun _ => ?_⟩
    exact from_double_snd _ _

/-- C10 witness: on the integer-integer path the double arena comes back
untouched. -/
theorem c10_add_frame_witness :
    (add (TaggedValue.from_int 10) (TaggedValue.from_int 5) intHeap8
      doubleHeap8).2.2 = doubleHeap8 :=
  (c10_add_frame (TaggedValue.from_int 10) (TaggedValue.from_int 5) intHeap8
    doubleHeap8).2.1 (by decide) (by decide)

end Tag0

/-! Sanity checks of the embedding on the program's own test values. -/

example : (Tag0.TaggedValue.from_int 10).raw = 80 := by decide
example : (Tag0.TaggedValue.from_int 10).as_int = 10 := by decide
example : (Tag0.TaggedValue.from_bool true).raw = 3 := by decide
example : (Tag0.TaggedValue.from_bool false).raw = 3 := by decide
example : (Tag0.TaggedValue.from_bool true).as_bool = false := by decide
example : ((-1 : ℤ) % 8) = 7 := by decide
example : Int.fdiv (-16) 8 = -2 := by decide
